import Mathlib

/-!  Shallow embedding of the Motiveo crew orchestration service
     (`src/services/crewAIService.ts`) and verification of the spec's claims
     about it.  Pure string/list helpers model the JavaScript primitives the
     source relies on; the service's mutable maps become explicit state
     passing, and the OpenAI completion endpoint becomes an oracle parameter
     indexed by call number. -/

set_option maxRecDepth 100000

namespace CrewAI

/-- Whitespace test used by the JS `trim` model. -/
def isWS (c : Char) : Bool := c.isWhitespace

/-- List-level trim: drop whitespace from both ends (models JS `String.prototype.trim`). -/
def trimList (l : List Char) : List Char :=
  ((l.dropWhile isWS).reverse.dropWhile isWS).reverse

/-- Models JS `s.trim()`. -/
def jsTrim (s : String) : String := String.mk (trimList s.data)

/-- Helper for the JS `s.split('\n')` model: splits a character list at each
newline, keeping empty segments (so `""` splits to `[[]]`). -/
def splitLinesAux : List Char → List (List Char)
  | [] => [[]]
  | c :: cs =>
    match splitLinesAux cs with
    | [] => [[]]
    | l :: ls => if c = '\n' then [] :: l :: ls else (c :: l) :: ls

/-- Models JS `s.split('\n')`. -/
def splitLines (s : String) : List String :=
  (splitLinesAux s.data).map String.mk

/-- Models JS `Array.prototype.join(sep)`. -/
def joinSep (sep : String) : List String → String
  | [] => ""
  | [x] => x
  | x :: y :: xs => x ++ sep ++ joinSep sep (y :: xs)

/-- Does `pat` occur at the head of the second list? -/
def leadsWith : List Char → List Char → Bool
  | _, [] => true
  | [], _ :: _ => false
  | c :: cs, d :: ds => c == d && leadsWith cs ds

/-- Does `pat` occur anywhere inside the second argument? -/
def occursIn (pat : List Char) : List Char → Bool
  | [] => pat.isEmpty
  | c :: t => leadsWith (c :: t) pat || occursIn pat t

/-- Models JS `s.includes(pat)`. -/
def strIncludes (s pat : String) : Bool := occursIn pat.data s.data

/-- Models JS `s.charAt(0).toUpperCase() + s.slice(1)`. -/
def capFirst (s : String) : String :=
  match s.data with
  | [] => ""
  | c :: t => String.mk (c.toUpper :: t)

/-- Models JS `s.replace('_', ' ')`: only the first occurrence is replaced. -/
def replaceFirstUnderscore : List Char → List Char
  | [] => []
  | c :: cs => if c = '_' then ' ' :: cs else c :: replaceFirstUnderscore cs

/-- Thousands-separator insertion over a reversed digit list, for the
JS `Number.prototype.toLocaleString` model. -/
def commaGroup : Nat → List Char → List Char
  | _, [] => []
  | k, c :: cs =>
    if k ≠ 0 && k % 3 == 0 then ',' :: c :: commaGroup (k + 1) cs
    else c :: commaGroup (k + 1) cs

/-- Models JS `n.toLocaleString()` for a natural number. -/
def toLocale (n : Nat) : String :=
  String.mk ((commaGroup 0 (toString n).data.reverse).reverse)

/-- JS `x || d` for an optional numeric field used as a number (0 is falsy). -/
def numOr (x : Option Nat) (d : Nat) : Nat :=
  match x with
  | some n => if n = 0 then d else n
  | none => d

/-- JS `x || d` for an optional numeric field interpolated into text with a
string default (0 is falsy). -/
def numOrStr (x : Option Nat) (d : String) : String :=
  match x with
  | some n => if n = 0 then d else toString n
  | none => d

/-- JS `x?.toLocaleString() || d` (a formatted number is a non-empty string,
hence truthy). -/
def localeOrStr (x : Option Nat) (d : String) : String :=
  match x with
  | some n => toLocale n
  | none => d

/-- JS `x || d` for an optional string field (the empty string is falsy). -/
def strOr (x : Option String) (d : String) : String :=
  match x with
  | some s => if s = "" then d else s
  | none => d

/-- JS `slice(-n)`: the last `n` elements of a list (all of them when shorter). -/
def lastN (n : Nat) (l : List α) : List α := l.drop (l.length - n)

/-! ## Data model (the TypeScript interfaces) -/

structure AgentConfig where
  role : String
  goal : String
  backstory : String
  tools : List String
  memory : Bool
  verbose : Bool
deriving Repr, DecidableEq

structure Task where
  description : String
  agent : String
  expected_output : String
deriving Repr, DecidableEq

inductive ProcessKind
  | sequential
  | hierarchical
deriving Repr, DecidableEq

structure CrewConfig where
  agents : List (String × AgentConfig)
  tasks : List Task
  process : ProcessKind
  memory : Bool
  verbose : Bool
deriving Repr

structure AgentResponse where
  agent : String
  response : String
  confidence : Rat
  actionItems : List String
  insights : List String
  recommendations : List String
  nextSteps : List String
deriving Repr, DecidableEq

structure CrewExecution where
  results : List AgentResponse
  finalOutput : String
  executionTime : Nat
  success : Bool
deriving Repr, DecidableEq

/-- The caller-supplied context object: the named fields the service reads,
each optional because the source tolerates absent fields. -/
structure Context where
  targetSleepHours : Option Nat := none
  targetBedtime : Option String := none
  targetWakeTime : Option String := none
  lastNightSleep : Option Nat := none
  sleepScore : Option Nat := none
  sleepEfficiency : Option Nat := none
  wakeUps : Option Nat := none
  roomTemperature : Option Nat := none
  trackingMethod : Option String := none
  sleepStreak : Option Nat := none
  weeklyAverage : Option Nat := none
  dailyStepTarget : Option Nat := none
  currentSteps : Option Nat := none
  remainingSteps : Option Nat := none
  distance : Option Nat := none
  caloriesBurned : Option Nat := none
  stepStreak : Option Nat := none
  baselineAverage : Option Nat := none
  strideLength : Option Nat := none
  preferredWalkingTimes : Option (List String) := none
  weatherAdaptive : Option Bool := none
  routeDiscovery : Option Bool := none
deriving Repr, DecidableEq

/-- One entry of the per-agent memory map (`agentMemory.push({...})`). -/
structure MemoryEntry where
  query : String
  response : String
  timestamp : Nat
  context : Context
deriving Repr, DecidableEq

/-- The service's mutable fields (`agentMemory` and `userContext` maps),
modelled as total functions with the map's get-or-default semantics. -/
structure SState where
  agentMemory : String → List MemoryEntry
  userContext : String → Option Context

/-- A freshly constructed service: both maps empty. -/
def initState : SState := ⟨fun _ => [], fun _ => none⟩

/-- `isConfigured()` from the source. -/
def isConfigured (apiKey : String) : Bool :=
  !(apiKey == "") && !(apiKey == "your_openai_api_key_here") && decide (apiKey.length > 20)

/-! ## Crew Registry (`getSleepTrackingCrew` / `getStepsTrackingCrew`) -/

/-- Sleep Tracking Agent Configuration. -/
def getSleepTrackingCrew : CrewConfig where
  agents :=
    [("sleep_analyst",
      { role := "Sleep Quality Analyst"
        goal := "Analyze sleep patterns, quality metrics, and provide data-driven insights for sleep optimization"
        backstory := "You are a certified sleep specialist with expertise in circadian rhythm science, sleep hygiene, and sleep disorder recognition. You analyze sleep data to identify patterns, quality issues, and optimization opportunities."
        tools := ["sleep_data_analysis", "circadian_rhythm_assessment", "sleep_quality_scoring"]
        memory := true
        verbose := true }),
     ("sleep_coach",
      { role := "Sleep Optimization Coach"
        goal := "Provide personalized sleep improvement recommendations and behavioral coaching for better sleep habits"
        backstory := "You are a behavioral sleep coach specializing in sleep hygiene, bedtime routines, and lifestyle modifications for improved sleep. You help users build sustainable sleep habits through evidence-based interventions."
        tools := ["habit_formation", "environmental_optimization", "routine_planning"]
        memory := true
        verbose := true }),
     ("circadian_specialist",
      { role := "Circadian Rhythm Specialist"
        goal := "Optimize sleep-wake cycles, light exposure, and timing recommendations for better circadian health"
        backstory := "You are a chronobiology expert who understands how light, timing, and lifestyle factors affect circadian rhythms. You provide precise timing recommendations for sleep, meals, exercise, and light exposure."
        tools := ["light_therapy_planning", "meal_timing_optimization", "chronotype_assessment"]
        memory := true
        verbose := true })]
  tasks :=
    [{ description := "Analyze current sleep data and identify patterns, quality issues, and areas for improvement"
       agent := "sleep_analyst"
       expected_output := "Detailed sleep analysis with quality scores, pattern identification, and specific improvement areas" },
     { description := "Generate personalized sleep optimization recommendations based on analysis"
       agent := "sleep_coach"
       expected_output := "Actionable sleep improvement plan with specific behavioral modifications and habit changes" },
     { description := "Provide circadian rhythm optimization strategies and timing recommendations"
       agent := "circadian_specialist"
       expected_output := "Precise timing recommendations for sleep, light exposure, meals, and activities to optimize circadian health" }]
  process := ProcessKind.sequential
  memory := true
  verbose := true

/-- Daily Steps Agent Configuration. -/
def getStepsTrackingCrew : CrewConfig where
  agents :=
    [("activity_analyst",
      { role := "Physical Activity Data Analyst"
        goal := "Analyze step patterns, activity levels, and movement behaviors to identify optimization opportunities"
        backstory := "You are a kinesiologist and movement specialist who analyzes daily activity patterns. You understand how step counts relate to overall health, weight management, and cardiovascular fitness."
        tools := ["activity_pattern_analysis", "movement_behavior_assessment", "health_impact_calculation"]
        memory := true
        verbose := true }),
     ("movement_coach",
      { role := "Movement and Walking Coach"
        goal := "Provide personalized strategies to increase daily steps and build sustainable movement habits"
        backstory := "You are a certified exercise physiologist specializing in lifestyle physical activity. You help people integrate more movement into their daily routines through practical, achievable strategies."
        tools := ["habit_integration", "route_planning", "motivation_strategies"]
        memory := true
        verbose := true }),
     ("wellness_strategist",
      { role := "Holistic Wellness Strategist"
        goal := "Connect daily movement with overall health goals and provide comprehensive wellness recommendations"
        backstory := "You are a wellness expert who understands how daily movement impacts sleep, stress, energy, weight management, and overall health. You create integrated wellness strategies."
        tools := ["wellness_integration", "goal_alignment", "lifestyle_optimization"]
        memory := true
        verbose := true })]
  tasks :=
    [{ description := "Analyze current step patterns, identify barriers to movement, and assess progress toward goals"
       agent := "activity_analyst"
       expected_output := "Comprehensive activity analysis with pattern identification, barrier assessment, and progress evaluation" },
     { description := "Generate personalized movement strategies and step-increasing recommendations"
       agent := "movement_coach"
       expected_output := "Practical movement plan with specific strategies to increase daily steps and build walking habits" },
     { description := "Integrate movement recommendations with overall wellness goals and lifestyle factors"
       agent := "wellness_strategist"
       expected_output := "Holistic wellness strategy connecting daily movement with sleep, nutrition, stress management, and other health goals" }]
  process := ProcessKind.sequential
  memory := true
  verbose := true

/-- The two goal domains `executeCrew` accepts. -/
inductive GoalType
  | sleep_tracking
  | daily_steps
deriving Repr, DecidableEq

/-- The string form of the goal-domain identifier. -/
def GoalType.str : GoalType → String
  | .sleep_tracking => "sleep_tracking"
  | .daily_steps => "daily_steps"

/-- The crew selected by `executeCrew`'s ternary on the goal type. -/
def crewCfg : GoalType → CrewConfig
  | .sleep_tracking => getSleepTrackingCrew
  | .daily_steps => getStepsTrackingCrew

/-! ## Response Parser (`parseAgentResponse`) -/

/-- The recommendations heading test of the source:
`line.includes('**Recommendations**:') || line.includes('**Recommendation')`. -/
def recHeading (line : String) : Bool :=
  strIncludes line "**Recommendations**:" || strIncludes line "**Recommendation"

/-- The insights heading test of the source. -/
def insHeading (line : String) : Bool :=
  strIncludes line "**Insights**:" || strIncludes line "**Insight"

/-- The next-steps heading test of the source:
`line.includes('**Next Steps**:') || line.includes('**Action')`. -/
def nextHeading (line : String) : Bool :=
  strIncludes line "**Next Steps**:" || strIncludes line "**Action"

/-- The bullet-line filter of the source:
`l.trim().startsWith('-') || l.trim().startsWith('•')`. -/
def isBulletLine (l : String) : Bool :=
  (jsTrim l).data.head? == some '-' || (jsTrim l).data.head? == some '•'

/-- The bullet-stripping map of the source:
`l.replace(/^[\-\•]\s*/, '').trim()` (the regex anchors at the start of the
untrimmed line and strips one `-` or `•` plus following whitespace). -/
def stripBulletTrim (l : String) : String :=
  match l.data with
  | [] => ""
  | c :: rest =>
    if c = '-' ∨ c = '•' then String.mk (trimList (rest.dropWhile isWS))
    else String.mk (trimList l.data)

/-- One section assignment of the source's `forEach` body: each matching line
overwrites the field with the bullet lines of the window that follows the
first occurrence of that line (`lines.slice(lines.indexOf(line) + 1,
lines.indexOf(line) + 1 + window)`). -/
def sectionExtract (lines : List String) (headingMatch : String → Bool) (window : Nat) : List String :=
  lines.foldl
    (fun acc line =>
      if headingMatch line then
        (((lines.drop (lines.findIdx (fun l => l == line) + 1)).take window).filter
          isBulletLine).map stripBulletTrim
      else acc)
    []

/-- `parseAgentResponse` from the source. -/
def parseAgentResponse (response : String) (agentRole : String) : AgentResponse :=
  let lines := (splitLines response).filter (fun line => !(jsTrim line == ""))
  let recommendations := sectionExtract lines recHeading 5
  let insights := sectionExtract lines insHeading 3
  let nextSteps := sectionExtract lines nextHeading 3
  let actionItems : List String := []
  let actionItems := if actionItems.length == 0 then recommendations.take 3 else actionItems
  { agent := agentRole
    response := response
    confidence := (0.85 : Rat)
    actionItems := actionItems
    insights := insights
    recommendations := recommendations
    nextSteps := nextSteps }

/-! ## Prompt construction (`formatContextForAgent`, `createAgentPrompt`) -/

/-- `context.preferredWalkingTimes?.join(', ') || 'Not set'`. -/
def joinOrNotSet (x : Option (List String)) : String :=
  match x with
  | some ts => if joinSep ", " ts = "" then "Not set" else joinSep ", " ts
  | none => "Not set"

/-- `formatContextForAgent` from the source (the role checks are
case-sensitive `includes`, exactly as in the source). -/
def formatContextForAgent (context : Context) (agentRole : String) : String :=
  if strIncludes agentRole "sleep" then
    "\nSleep Profile:\n- Target sleep: " ++ toString (numOr context.targetSleepHours 8) ++
    " hours\n- Bedtime: " ++ strOr context.targetBedtime "Not set" ++
    "\n- Wake time: " ++ strOr context.targetWakeTime "Not set" ++
    "\n- Last night's sleep: " ++ numOrStr context.lastNightSleep "Not logged" ++
    " hours\n- Sleep score: " ++ numOrStr context.sleepScore "Not available" ++
    "\n- Sleep efficiency: " ++ numOrStr context.sleepEfficiency "Not available" ++
    "%\n- Wake-ups: " ++ numOrStr context.wakeUps "Not tracked" ++
    "\n- Room temperature: " ++ numOrStr context.roomTemperature "Not set" ++
    "°F\n- Tracking method: " ++ strOr context.trackingMethod "Manual" ++
    "\n- Sleep streak: " ++ toString (context.sleepStreak.getD 0) ++
    " days\n- Weekly average: " ++ toString (context.weeklyAverage.getD 0) ++
    " hours\n      "
  else if strIncludes agentRole "activity" || strIncludes agentRole "movement" ||
      strIncludes agentRole "wellness" then
    "\nSteps Profile:\n- Daily target: " ++ localeOrStr context.dailyStepTarget "Not set" ++
    " steps\n- Current steps today: " ++ localeOrStr context.currentSteps "0" ++
    "\n- Remaining steps: " ++ localeOrStr context.remainingSteps "Unknown" ++
    "\n- Distance today: " ++ toString (context.distance.getD 0) ++
    "km\n- Calories burned: " ++ toString (context.caloriesBurned.getD 0) ++
    "\n- Tracking method: " ++ strOr context.trackingMethod "Manual" ++
    "\n- Step streak: " ++ toString (context.stepStreak.getD 0) ++
    " days\n- Weekly average: " ++ localeOrStr context.weeklyAverage "0" ++
    " steps\n- Baseline average: " ++ localeOrStr context.baselineAverage "Not set" ++
    " steps\n- Stride length: " ++ numOrStr context.strideLength "Not set" ++
    "cm\n- Preferred walking times: " ++ joinOrNotSet context.preferredWalkingTimes ++
    "\n- Weather adaptive: " ++ (if context.weatherAdaptive.getD false then "Yes" else "No") ++
    "\n- Route discovery: " ++ (if context.routeDiscovery.getD false then "Enabled" else "Disabled") ++
    "\n      "
  else
    "Context not available for this agent type."

/-- `createAgentPrompt` from the source.  `previousContext || 'None - ...'`
is the JS falsy test on the empty string. -/
def createAgentPrompt (agent : AgentConfig) (task : Task) (userQuery : String)
    (context : Context) (previousContext : String) (agentMemory : List MemoryEntry) : String :=
  let memoryContext :=
    if agentMemory.length > 0 then
      "\n\nPrevious interactions with this user:\n" ++
      joinSep "\n\n" ((lastN 3 agentMemory).map (fun m => "Q: " ++ m.query ++ "\nA: " ++ m.response))
    else ""
  "# Agent Role: " ++ agent.role ++
  "\n\n## Agent Profile\n**Goal**: " ++ agent.goal ++
  "\n**Backstory**: " ++ agent.backstory ++
  "\n**Available Tools**: " ++ joinSep ", " agent.tools ++
  "\n\n## Current Task\n" ++ task.description ++
  "\n\n## User Context\n" ++ formatContextForAgent context agent.role ++
  "\n\n## Previous Agent Outputs\n" ++
  (if previousContext == "" then "None - you are the first agent in this crew." else previousContext) ++
  "\n\n## User Query\n\"" ++ userQuery ++ "\"\n\n" ++ memoryContext ++
  "\n\n## Instructions\nAs the " ++ agent.role ++
  ", provide your specialized analysis and recommendations. Focus on your specific expertise area while considering the user's context and previous agent insights. Provide actionable, specific advice that aligns with your role.\n\nExpected Output Format:\n- **Analysis**: Your specialized assessment\n- **Recommendations**: 3-5 specific actionable items\n- **Insights**: Key patterns or observations\n- **Next Steps**: Immediate actions the user can take\n\nBe conversational, supportive, and provide specific, measurable recommendations within your area of expertise."

/-! ## Agent Task Executor and Crew Coordinator -/

/-- The completion capability: one call per agent task plus one for synthesis,
indexed by call number; `Except.error` models a thrown/failed `callOpenAI`. -/
abbrev Oracle := Nat → String → Except String String

/-- The memory update of `executeAgentTask`: `push` followed by
`splice(0, length - 10)` when the cap of 10 is exceeded. -/
def memAppend (mem : List MemoryEntry) (e : MemoryEntry) : List MemoryEntry :=
  let m := mem ++ [e]
  if m.length > 10 then m.drop (m.length - 10) else m

/-- `getFallbackAgentResponse` from the source (single-agent fallback,
confidence 0.6). -/
def getFallbackAgentResponse (agentRole userQuery : String) (context : Context) : AgentResponse :=
  { agent := agentRole
    response := "As your " ++ agentRole ++ ", I'm here to help with your query about \"" ++
      userQuery ++ "\". While I'm working with limited connectivity, I can still provide valuable guidance based on established best practices."
    confidence := (0.6 : Rat)
    actionItems := ["Continue with current plan", "Monitor progress", "Stay consistent"]
    insights := ["Consistency is key to success", "Small changes lead to big results"]
    recommendations := ["Maintain current routine", "Track progress daily", "Stay motivated"]
    nextSteps := ["Continue current approach", "Monitor results", "Adjust as needed"] }

/-- `executeAgentTask` from the source.  Returns the structured response, the
updated service state, and (for observation in the theorems) the prompt that
was sent to the completion capability.  The `context` parameter of
`getFallbackAgentResponse` is passed exactly as in the source. -/
def executeAgentTask (oracle : Oracle) (callIdx : Nat) (agent : AgentConfig) (task : Task)
    (userQuery : String) (context : Context) (previousResults : List AgentResponse)
    (st : SState) (now : Nat) : AgentResponse × SState × String :=
  let agentMemory := st.agentMemory agent.role
  let previousContext := joinSep "\n\n" (previousResults.map (fun r => r.response))
  let prompt := createAgentPrompt agent task userQuery context previousContext agentMemory
  match oracle callIdx prompt with
  | Except.ok response =>
    let parsedResponse := parseAgentResponse response agent.role
    let newMemory := memAppend agentMemory
      { query := userQuery, response := parsedResponse.response, timestamp := now, context := context }
    (parsedResponse,
     { st with agentMemory := fun r => if r == agent.role then newMemory else st.agentMemory r },
     prompt)
  | Except.error _ => (getFallbackAgentResponse agent.role userQuery context, st, prompt)

/-- The `for (const task of crewConfig.tasks)` loop of `executeCrew`.
`crewConfig.agents[task.agent]` being absent models the undefined-agent
TypeError the outer `catch` would absorb: the first component becomes `none`
and the state at the point of the throw is returned.  The third component is
the list of prompts issued, in order. -/
def runTasks (oracle : Oracle) (agents : List (String × AgentConfig))
    (userQuery : String) (context : Context) (now : Nat) :
    List Task → Nat → List AgentResponse → SState →
    Option (List AgentResponse) × SState × List String
  | [], _, acc, st => (some acc, st, [])
  | task :: rest, i, acc, st =>
    match agents.lookup task.agent with
    | none => (none, st, [])
    | some agent =>
      let r := executeAgentTask oracle i agent task userQuery context acc st now
      let out := runTasks oracle agents userQuery context now rest (i + 1) (acc ++ [r.1]) r.2.1
      (out.1, out.2.1, r.2.2 :: out.2.2)

/-- The coordination prompt of `coordinateAgentResponses`. -/
def coordinationPromptFor (agentResponses : List AgentResponse)
    (userQuery goalType : String) : String :=
  "\n# Crew Coordination Task\n\nYou are the crew coordinator for a " ++
  String.mk (replaceFirstUnderscore goalType.data) ++
  " assistance team. Multiple specialized agents have provided their analysis and recommendations for this user query: \"" ++
  userQuery ++ "\"\n\n## Agent Responses:\n" ++
  joinSep "\n\n" (agentResponses.map (fun agent =>
    "\n### " ++ agent.agent ++ "\n" ++ agent.response ++ "\n\nKey Recommendations:\n" ++
    joinSep "\n" (agent.recommendations.map (fun r => "- " ++ r)) ++ "\n")) ++
  "\n\n## Your Task\nSynthesize these expert insights into a cohesive, actionable response for the user. Create a unified plan that:\n\n1. **Integrates all agent recommendations** into a coherent strategy\n2. **Prioritizes actions** based on impact and feasibility  \n3. **Provides specific next steps** the user can take today\n4. **Maintains an encouraging, supportive tone**\n5. **Includes measurable goals** where appropriate\n\nFormat your response as a conversational message that feels like it's coming from a unified AI assistant, not multiple separate agents. Focus on what the user should do next.\n"

/-- The deterministic local combiner of `coordinateAgentResponses`'s catch
branch (synthesis-failure fallback): pool at most five recommendations and
three insights and render the fixed template. -/
def localCombine (agentResponses : List AgentResponse) : String :=
  let combinedRecommendations := ((agentResponses.map (fun a => a.recommendations)).flatten).take 5
  let combinedInsights := ((agentResponses.map (fun a => a.insights)).flatten).take 3
  "Based on expert analysis, here are your personalized recommendations:\n\n" ++
  joinSep "\n" (combinedRecommendations.enum.map (fun p => toString (p.1 + 1) ++ ". " ++ p.2)) ++
  "\n\nKey insights:\n" ++
  joinSep "\n" (combinedInsights.map (fun insight => "• " ++ insight)) ++
  "\n\nLet me know if you'd like me to elaborate on any of these recommendations!"

/-- `coordinateAgentResponses` from the source: one synthesis call, falling
back to the local combiner when it fails. -/
def coordinateAgentResponses (oracle : Oracle) (callIdx : Nat)
    (agentResponses : List AgentResponse) (userQuery goalType : String) : String :=
  match oracle callIdx (coordinationPromptFor agentResponses userQuery goalType) with
  | Except.ok coordinatedResponse => coordinatedResponse
  | Except.error _ => localCombine agentResponses

/-! ## Fallback Engine -/

/-- `getFallbackResponses` from the source: two canned, context-interpolated
`AgentResponse`s per goal domain. -/
def getFallbackResponses (goalType userQuery : String) (context : Context) : List AgentResponse :=
  if goalType == "sleep_tracking" then
    [{ agent := "Sleep Quality Analyst"
       response := "Based on your sleep data, I can see you're targeting " ++
         toString (numOr context.targetSleepHours 8) ++
         " hours of sleep. Your current patterns show room for optimization in sleep consistency and quality."
       confidence := (0.8 : Rat)
       actionItems := ["Track sleep consistently", "Maintain regular bedtime", "Monitor sleep quality"]
       insights := ["Sleep consistency is key to quality", "Room temperature affects sleep quality"]
       recommendations :=
         ["Maintain consistent bedtime and wake time",
          "Keep bedroom temperature between 65-68°F",
          "Avoid screens 1 hour before bed",
          "Create a relaxing bedtime routine"]
       nextSteps := ["Set bedtime reminder", "Prepare bedroom environment", "Log tonight's sleep"] },
     { agent := "Sleep Optimization Coach"
       response := "Your sleep habits can be optimized through better sleep hygiene and routine establishment. Focus on consistency and environmental factors for better rest."
       confidence := (0.8 : Rat)
       actionItems := ["Establish bedtime routine", "Optimize sleep environment", "Track sleep quality"]
       insights := ["Routine helps signal sleep time to your body", "Environment greatly impacts sleep quality"]
       recommendations :=
         ["Start wind-down routine 1 hour before bed",
          "Keep bedroom dark, cool, and quiet",
          "Avoid caffeine after 2 PM",
          "Use comfortable bedding and pillows"]
       nextSteps := ["Plan tonight's routine", "Adjust bedroom setup", "Set caffeine cutoff reminder"] }]
  else
    [{ agent := "Physical Activity Analyst"
       response := "Your current step count of " ++ localeOrStr context.currentSteps "0" ++
         " shows you need " ++ localeOrStr context.remainingSteps "more" ++
         " steps to reach your " ++ localeOrStr context.dailyStepTarget "10000" ++ " step goal."
       confidence := (0.8 : Rat)
       actionItems := ["Increase daily movement", "Find walking opportunities", "Track step progress"]
       insights := ["Small movements throughout day add up", "Consistency matters more than intensity"]
       recommendations :=
         ["Take stairs instead of elevators",
          "Park farther away from destinations",
          "Take walking breaks every hour",
          "Walk during phone calls",
          "Use a standing desk when possible"]
       nextSteps := ["Take a 10-minute walk now", "Set hourly movement reminders", "Plan walking routes"] },
     { agent := "Movement Coach"
       response := "To reach your step goal, focus on integrating movement into your daily routine. Small changes can lead to significant increases in daily activity."
       confidence := (0.8 : Rat)
       actionItems := ["Integrate movement into routine", "Set movement reminders", "Track progress"]
       insights := ["Habit stacking makes movement automatic", "Social walking increases adherence"]
       recommendations :=
         ["Schedule 3 walking breaks during work",
          "Walk to nearby errands instead of driving",
          "Take evening walks with family/friends",
          "Use fitness apps for motivation",
          "Join walking groups or challenges"]
       nextSteps := ["Schedule next walk", "Invite someone to walk with you", "Download step tracking app"] }]

/-- `generateFallbackFinalOutput` from the source.  Note: it takes the first
five pooled recommendations but ALL pooled insights (no `slice(0, 3)`), and
renders its own template. -/
def generateFallbackFinalOutput (results : List AgentResponse)
    (goalType userQuery : String) : String :=
  let allRecommendations := (results.map (fun r => r.recommendations)).flatten
  let topRecommendations := allRecommendations.take 5
  let allInsights := (results.map (fun r => r.insights)).flatten
  let goalEmoji := if goalType == "sleep_tracking" then "😴" else "🚶‍♀️"
  let goalName := if goalType == "sleep_tracking" then "sleep optimization" else "daily movement"
  goalEmoji ++ " **" ++ capFirst goalName ++
  " Plan**\n\nBased on expert analysis, here's your personalized strategy:\n\n**Priority Actions:**\n" ++
  joinSep "\n" (topRecommendations.enum.map (fun p => toString (p.1 + 1) ++ ". " ++ p.2)) ++
  "\n\n**Key Insights:**\n" ++
  joinSep "\n" (allInsights.map (fun insight => "• " ++ insight)) ++
  "\n\n**Next Steps:**\nStart with action #1 today and gradually build these habits into your routine. Consistency is more important than perfection!\n\nWhat would you like to focus on first?"

/-- `getFallbackCrewExecution` from the source: whole-crew fallback, fixed
nominal time 500, success always true. -/
def getFallbackCrewExecution (goalType userQuery : String) (context : Context) : CrewExecution :=
  let fallbackResponses := getFallbackResponses goalType userQuery context
  { results := fallbackResponses
    finalOutput := generateFallbackFinalOutput fallbackResponses goalType userQuery
    executionTime := 500
    success := true }

/-- `executeCrew` from the source.  `now` models the wall-clock timestamp
recorded into memory entries; `elapsed` models `Date.now() - startTime` at
the point of success.  Both fallback paths (unconfigured capability, and the
caught exception from an undefined agent key) delegate to the Fallback
Engine, exactly as the source's early return and `catch` do. -/
def executeCrew (apiKey : String) (oracle : Oracle) (goalType : GoalType)
    (userQuery : String) (context : Context) (st : SState) (now elapsed : Nat) :
    CrewExecution × SState :=
  if !(isConfigured apiKey) then
    (getFallbackCrewExecution goalType.str userQuery context, st)
  else
    let crewConfig := crewCfg goalType
    let st1 : SState :=
      { st with userContext := fun k =>
          if k == goalType.str ++ "_context" then some context else st.userContext k }
    let run := runTasks oracle crewConfig.agents userQuery context now crewConfig.tasks 0 [] st1
    match run.1 with
    | none => (getFallbackCrewExecution goalType.str userQuery context, run.2.1)
    | some results =>
      let finalOutput :=
        coordinateAgentResponses oracle crewConfig.tasks.length results userQuery goalType.str
      ({ results := results
         finalOutput := finalOutput
         executionTime := elapsed
         success := true }, run.2.1)

/-- `getSleepCoaching` from the source. -/
def getSleepCoaching (apiKey : String) (oracle : Oracle) (userQuery : String)
    (sleepContext : Context) (st : SState) (now elapsed : Nat) : CrewExecution × SState :=
  executeCrew apiKey oracle GoalType.sleep_tracking userQuery sleepContext st now elapsed

/-- `getStepsCoaching` from the source. -/
def getStepsCoaching (apiKey : String) (oracle : Oracle) (userQuery : String)
    (stepsContext : Context) (st : SState) (now elapsed : Nat) : CrewExecution × SState :=
  executeCrew apiKey oracle GoalType.daily_steps userQuery stepsContext st now elapsed

/-- `clearAgentMemory` from the source. -/
def clearAgentMemory (st : SState) (agentRole : Option String) : SState :=
  match agentRole with
  | some r => { st with agentMemory := fun k => if k == r then [] else st.agentMemory k }
  | none => { st with agentMemory := fun _ => [] }

/-- `getAgentMemory` from the source. -/
def getAgentMemory (st : SState) (agentRole : String) : List MemoryEntry :=
  st.agentMemory agentRole

/-! ## General lemmas -/

/-- `memAppend` is exactly "keep the last ten of the extended list". -/
theorem memAppend_eq_lastN (m : List MemoryEntry) (e : MemoryEntry) :
    memAppend m e = lastN 10 (m ++ [e]) := by
  unfold memAppend lastN
  dsimp only
  split
  · rfl
  · rename_i h
    rw [Nat.sub_eq_zero_of_le (by omega), List.drop_zero]

/-- Keeping the last `n` twice over an extension is the same as keeping the
last `n` of the whole extension. -/
theorem lastN_append_lastN (n : Nat) (xs ys : List α) :
    lastN n (lastN n xs ++ ys) = lastN n (xs ++ ys) := by
  unfold lastN
  rw [List.drop_append_eq_append_drop, List.drop_append_eq_append_drop, List.drop_drop]
  congr 1
  · congr 1
    simp only [List.length_append, List.length_drop]
    omega
  · congr 1
    simp only [List.length_append, List.length_drop]
    omega

/-- Folding `memAppend` from a last-ten state keeps the last ten overall. -/
theorem foldl_memAppend_lastN (es : List MemoryEntry) :
    ∀ m : List MemoryEntry, es.foldl memAppend (lastN 10 m) = lastN 10 (m ++ es) := by
  induction es with
  | nil => intro m; simp [lastN]
  | cons e es ih =>
    intro m
    rw [List.foldl_cons, memAppend_eq_lastN (lastN 10 m) e, lastN_append_lastN, ih (m ++ [e])]
    simp

/-- The per-task loop returns one `AgentResponse` per task whenever every
task's agent key is present in the crew's agent map. -/
theorem runTasks_some_length (oracle : Oracle) (agents : List (String × AgentConfig))
    (q : String) (ctx : Context) (now : Nat) :
    ∀ (tasks : List Task) (i : Nat) (acc : List AgentResponse) (st : SState),
      (∀ t ∈ tasks, (agents.lookup t.agent).isSome) →
      ∃ rs, (runTasks oracle agents q ctx now tasks i acc st).1 = some rs ∧
        rs.length = acc.length + tasks.length := by
  intro tasks
  induction tasks with
  | nil => intro i acc st _; exact ⟨acc, rfl, by simp⟩
  | cons t ts ih =>
    intro i acc st h
    have ht : (agents.lookup t.agent).isSome := h t (by simp)
    obtain ⟨ag, hag⟩ := Option.isSome_iff_exists.mp ht
    obtain ⟨rs, h1, h2⟩ := ih (i + 1)
      (acc ++ [(executeAgentTask oracle i ag t q ctx acc st now).1])
      (executeAgentTask oracle i ag t q ctx acc st now).2.1
      (fun t' ht' => h t' (by simp [ht']))
    refine ⟨rs, ?_, ?_⟩
    · simp only [runTasks, hag]
      exact h1
    · simp only [List.length_append, List.length_cons, List.length_nil] at h2 ⊢
      omega

/-! ## Claims -/

/-- C1: for every goal domain, API key, query, context, service state and
completion oracle — whether the capability is configured, whether individual
agent calls fail, and whether the per-task loop aborts on a missing agent —
`executeCrew` returns a `CrewExecution` whose success flag is `true`. -/
theorem executeCrew_success_always (apiKey : String) (oracle : Oracle) (g : GoalType)
    (q : String) (ctx : Context) (st : SState) (now elapsed : Nat) :
    (executeCrew apiKey oracle g q ctx st now elapsed).1.success = true := by
  unfold executeCrew
  split
  · rfl
  · dsimp only
    split <;> rfl

/-- C9: for every input text and role, the parser's `actionItems` equals the
first three extracted recommendations: the `'**Next Steps**:' / '**Action'`
heading populates only `nextSteps`, and `actionItems` is never assigned
before the final `recommendations.slice(0, 3)` substitution, so that
substitution always applies (and yields `[]` when recommendations are empty). -/
theorem parse_actionItems_eq_take3 (r role : String) :
    (parseAgentResponse r role).actionItems =
      (parseAgentResponse r role).recommendations.take 3 := rfl

/-- C4: after any sequence of successful agent-task executions appending
memory entries through `memAppend` (starting from the empty memory a fresh
service has), a role's memory never exceeds 10 entries, and the retained list
is exactly the suffix of the last 10 inserted entries, in insertion order. -/
theorem memory_cap_and_fifo (es : List MemoryEntry) :
    (es.foldl memAppend []).length ≤ 10 ∧
      es.foldl memAppend [] = es.drop (es.length - 10) := by
  have h0 : (lastN 10 ([] : List MemoryEntry)) = [] := rfl
  have h := foldl_memAppend_lastN es []
  rw [h0] at h
  simp only [List.nil_append] at h
  refine ⟨?_, by rw [h]; rfl⟩
  rw [h]
  unfold lastN
  simp only [List.length_drop]
  omega

/-- C10: when the completion call of a single agent task fails, the task
returns the role-labelled fallback response with confidence 0.6 and the whole
service state — in particular every role's memory — is returned unchanged. -/
theorem agent_failure_leaves_memory (oracle : Oracle) (i : Nat) (agent : AgentConfig)
    (task : Task) (q : String) (ctx : Context) (prev : List AgentResponse)
    (st : SState) (now : Nat) (err : String)
    (h : ∀ p, oracle i p = Except.error err) :
    (executeAgentTask oracle i agent task q ctx prev st now).1 =
        getFallbackAgentResponse agent.role q ctx ∧
      (executeAgentTask oracle i agent task q ctx prev st now).2.1 = st ∧
      (executeAgentTask oracle i agent task q ctx prev st now).1.confidence = (0.6 : Rat) := by
  unfold executeAgentTask
  dsimp only
  rw [h]
  exact ⟨rfl, rfl, rfl⟩

/-- Witness for C10 at a concrete failing oracle, agent and state. -/
theorem agent_failure_leaves_memory_witness :
    (∀ p, (fun _ _ => Except.error "boom" : Oracle) 0 p = Except.error "boom") ∧
      ((executeAgentTask (fun _ _ => Except.error "boom") 0
          { role := "Sleep Quality Analyst", goal := "g", backstory := "b",
            tools := [], memory := true, verbose := true }
          { description := "d", agent := "sleep_analyst", expected_output := "e" }
          "query" {} [] initState 3).1 =
        getFallbackAgentResponse "Sleep Quality Analyst" "query" {} ∧
      (executeAgentTask (fun _ _ => Except.error "boom") 0
          { role := "Sleep Quality Analyst", goal := "g", backstory := "b",
            tools := [], memory := true, verbose := true }
          { description := "d", agent := "sleep_analyst", expected_output := "e" }
          "query" {} [] initState 3).2.1 = initState ∧
      (executeAgentTask (fun _ _ => Except.error "boom") 0
          { role := "Sleep Quality Analyst", goal := "g", backstory := "b",
            tools := [], memory := true, verbose := true }
          { description := "d", agent := "sleep_analyst", expected_output := "e" }
          "query" {} [] initState 3).1.confidence = (0.6 : Rat)) :=
  ⟨fun _ => rfl,
   agent_failure_leaves_memory (fun _ _ => Except.error "boom") 0 _ _ "query" {} [] initState 3
     "boom" (fun _ => rfl)⟩

/-! ### Parser lemmas (for C5 / C6) -/

/-- `splitLinesAux` never returns the empty list. -/
theorem splitLinesAux_ne_nil (cs : List Char) : splitLinesAux cs ≠ [] := by
  induction cs with
  | nil => simp [splitLinesAux]
  | cons c cs ih =>
    unfold splitLinesAux
    match h : splitLinesAux cs with
    | [] => exact absurd h ih
    | l :: ls => dsimp only; split <;> simp

/-- Splitting a newline-free list yields that single line. -/
theorem splitLinesAux_no_newline (xs : List Char) (h : '\n' ∉ xs) :
    splitLinesAux xs = [xs] := by
  induction xs with
  | nil => rfl
  | cons x xs ih =>
    have hx : x ≠ '\n' := fun he => h (he ▸ List.mem_cons_self x xs)
    have hxs : '\n' ∉ xs := fun hm => h (List.mem_cons_of_mem x hm)
    unfold splitLinesAux
    rw [ih hxs]
    simp [hx]

/-- Splitting separates at the first newline when the first segment is
newline-free. -/
theorem splitLinesAux_append (xs ys : List Char) (h : '\n' ∉ xs) :
    splitLinesAux (xs ++ '\n' :: ys) = xs :: splitLinesAux ys := by
  induction xs with
  | nil =>
    show splitLinesAux ('\n' :: ys) = [] :: splitLinesAux ys
    conv_lhs => unfold splitLinesAux
    match hy : splitLinesAux ys with
    | [] => exact absurd hy (splitLinesAux_ne_nil ys)
    | l :: ls => simp
  | cons x xs ih =>
    have hx : x ≠ '\n' := fun he => h (he ▸ List.mem_cons_self x xs)
    have hxs : '\n' ∉ xs := fun hm => h (List.mem_cons_of_mem x hm)
    show splitLinesAux (x :: (xs ++ '\n' :: ys)) = (x :: xs) :: splitLinesAux ys
    conv_lhs => unfold splitLinesAux
    rw [ih hxs]
    simp [hx]

/-- String-level: a newline-free line followed by `"\n"` splits off first. -/
theorem splitLines_append_line (a b : String) (h : '\n' ∉ a.data) :
    splitLines ((a ++ "\n") ++ b) = a :: splitLines b := by
  unfold splitLines
  have hd : ((a ++ "\n") ++ b).data = a.data ++ '\n' :: b.data := by
    simp [String.data_append]
  rw [hd, splitLinesAux_append a.data b.data h]
  rfl

/-- String-level: splitting a newline-free string yields just that string. -/
theorem splitLines_single (a : String) (h : '\n' ∉ a.data) :
    splitLines a = [a] := by
  unfold splitLines
  rw [splitLinesAux_no_newline a.data h]
  rfl

/-- `splitLines` inverts `joinSep "\n"` on a non-empty list of newline-free
lines. -/
theorem splitLines_joinSep (ls : List String) (hne : ls ≠ [])
    (h : ∀ l ∈ ls, '\n' ∉ l.data) :
    splitLines (joinSep "\n" ls) = ls := by
  induction ls with
  | nil => exact absurd rfl hne
  | cons x xs ih =>
    match xs with
    | [] => exact splitLines_single x (h x (by simp))
    | y :: ys =>
      have hx : '\n' ∉ x.data := h x (by simp)
      have hrest : ∀ l ∈ y :: ys, '\n' ∉ l.data := fun l hl => h l (by simp [hl])
      show splitLines (x ++ "\n" ++ joinSep "\n" (y :: ys)) = x :: y :: ys
      rw [splitLines_append_line x (joinSep "\n" (y :: ys)) hx, ih (by simp) hrest]

/-- `dropWhile` is idempotent. -/
theorem dropWhile_idem (p : Char → Bool) (l : List Char) :
    (l.dropWhile p).dropWhile p = l.dropWhile p := by
  induction l with
  | nil => rfl
  | cons c t ih =>
    by_cases hc : p c = true
    · simp [List.dropWhile_cons, hc, ih]
    · simp [List.dropWhile_cons, hc]

/-- Trimming a list headed by a non-whitespace character keeps that head. -/
theorem trimList_cons_head (c : Char) (t : List Char) (hc : isWS c = false) :
    ∃ u, trimList (c :: t) = c :: u := by
  unfold trimList
  rw [List.dropWhile_cons, hc]
  simp only [Bool.false_eq_true, if_false, List.reverse_cons]
  rw [List.dropWhile_append]
  by_cases he : (t.reverse.dropWhile isWS).isEmpty = true
  · rw [if_pos he]
    refine ⟨[], ?_⟩
    simp [List.dropWhile_cons, hc]
  · rw [if_neg he]
    exact ⟨(t.reverse.dropWhile isWS).reverse, by simp⟩

/-- A line headed by a non-whitespace character trims to something non-empty,
with that character first. -/
theorem jsTrim_cons (c : Char) (s : String) (hc : isWS c = false)
    (hd : s.data = c :: s.data.tail) :
    ∃ u, (jsTrim s).data = c :: u := by
  unfold jsTrim
  rw [hd]
  exact trimList_cons_head c s.data.tail hc

/-- A fold that only overwrites on a heading match keeps its accumulator when
no element matches. -/
theorem foldl_no_match (g : String → List String) (pred : String → Bool)
    (ls : List String) (acc : List String) (h : ∀ l ∈ ls, pred l = false) :
    ls.foldl (fun acc line => if pred line then g line else acc) acc = acc := by
  induction ls generalizing acc with
  | nil => rfl
  | cons x xs ih =>
    rw [List.foldl_cons, if_neg (by simp [h x (by simp)])]
    exact ih acc (fun l hl => h l (by simp [hl]))

/-- `sectionExtract` on a heading line followed by non-matching lines yields
exactly the bullet lines of the window after the heading, stripped. -/
theorem sectionExtract_heading (hd : String) (pred : String → Bool) (w : Nat)
    (ls : List String) (hhd : pred hd = true) (hls : ∀ l ∈ ls, pred l = false) :
    sectionExtract (hd :: ls) pred w =
      ((ls.take w).filter isBulletLine).map stripBulletTrim := by
  unfold sectionExtract
  rw [List.foldl_cons, if_pos hhd]
  have hidx : (hd :: ls).findIdx (fun l => l == hd) = 0 := by
    rw [List.findIdx_cons]
    simp
  rw [hidx]
  simp only [List.drop_succ_cons, List.drop_zero]
  exact foldl_no_match _ pred ls _ hls

/-- Trimming after an initial whitespace-drop is plain trimming. -/
theorem trimList_dropWhile (l : List Char) :
    trimList (l.dropWhile isWS) = trimList l := by
  unfold trimList
  rw [dropWhile_idem]

/-- A line headed by a non-whitespace character does not trim to empty. -/
theorem jsTrim_ne_of_head (c : Char) (s : String) (hc : isWS c = false)
    (hd : s.data = c :: s.data.tail) : (jsTrim s == "") = false := by
  obtain ⟨u, hu⟩ := jsTrim_cons c s hc hd
  rw [beq_eq_false_iff_ne]
  intro he
  rw [he] at hu
  exact absurd hu (by simp [String.data])

/-- The parser collects a `"- "` line. -/
theorem isBulletLine_dash (s : String) : isBulletLine ("- " ++ s) = true := by
  obtain ⟨u, hu⟩ := jsTrim_cons '-' ("- " ++ s) (by decide) rfl
  unfold isBulletLine
  rw [hu]
  simp

/-- The parser collects a `"• "` line. -/
theorem isBulletLine_bullet (s : String) : isBulletLine ("• " ++ s) = true := by
  obtain ⟨u, hu⟩ := jsTrim_cons '•' ("• " ++ s) (by decide) rfl
  unfold isBulletLine
  rw [hu]
  simp

/-- The parser does NOT collect a `"* "` line: the source's filter only tests
`-` and `•`. -/
theorem isBulletLine_star (s : String) : isBulletLine ("* " ++ s) = false := by
  obtain ⟨u, hu⟩ := jsTrim_cons '*' ("* " ++ s) (by decide) rfl
  unfold isBulletLine
  rw [hu]
  simp

/-- Stripping a `"- "` line yields the trimmed content. -/
theorem stripBulletTrim_dash (s : String) : stripBulletTrim ("- " ++ s) = jsTrim s := by
  have hdata : ("- " ++ s).data = '-' :: ' ' :: s.data := rfl
  unfold stripBulletTrim
  rw [hdata]
  dsimp only
  rw [if_pos (Or.inl rfl)]
  rw [List.dropWhile_cons, if_pos (by decide), trimList_dropWhile]
  rfl

/-- Stripping a `"• "` line yields the trimmed content. -/
theorem stripBulletTrim_bullet (s : String) : stripBulletTrim ("• " ++ s) = jsTrim s := by
  have hdata : ("• " ++ s).data = '•' :: ' ' :: s.data := rfl
  unfold stripBulletTrim
  rw [hdata]
  dsimp only
  rw [if_pos (Or.inr rfl)]
  rw [List.dropWhile_cons, if_pos (by decide), trimList_dropWhile]
  rfl

/-- The recommendations extracted from a text that is the heading line
followed by non-heading, newline-free lines: the bullet lines of the 5-line
window, stripped, in order. -/
theorem parse_rec_of_heading (role : String) (ls : List String) (hne : ls ≠ [])
    (hnl : ∀ l ∈ ls, '\n' ∉ l.data)
    (htr : ∀ l ∈ ls, (jsTrim l == "") = false)
    (hhd : ∀ l ∈ ls, recHeading l = false) :
    (parseAgentResponse ("**Recommendations**:\n" ++ joinSep "\n" ls) role).recommendations =
      ((ls.take 5).filter isBulletLine).map stripBulletTrim := by
  have hsplit : ("**Recommendations**:\n" : String) = "**Recommendations**:" ++ "\n" := by decide
  have hlines : splitLines ("**Recommendations**:\n" ++ joinSep "\n" ls)
      = "**Recommendations**:" :: ls := by
    rw [hsplit, splitLines_append_line _ _ (by decide), splitLines_joinSep ls hne hnl]
  unfold parseAgentResponse
  dsimp only
  rw [hlines]
  rw [List.filter_cons_of_pos (by decide)]
  rw [List.filter_eq_self.mpr (fun l hl => by simp [htr l hl])]
  exact sectionExtract_heading _ _ _ _ (by decide) hhd

/-- A newline is not among the characters of a marker-prefixed line whose
content is newline-free. -/
theorem nl_not_mem_marker (c : Char) (hc : ¬('\n' = c)) (s : String)
    (hn : '\n' ∉ s.data) : '\n' ∉ (c :: ' ' :: s.data) := by
  intro h
  rcases List.mem_cons.mp h with h1 | h2
  · exact hc h1
  · rcases List.mem_cons.mp h2 with h3 | h4
    · exact absurd h3 (by decide)
    · exact hn h4

/-- C5: parser round-trip.  A text consisting of the recommendations heading
(the source's vocabulary `**Recommendations**:`) followed by three bulleted
lines parses to exactly those three lines with the bullet marker and
surrounding whitespace stripped, in order; and any text none of whose lines
matches the heading test parses to an empty recommendations list with the raw
text still returned in the response field (the parser is a total function, so
no error is ever raised). -/
theorem parser_roundtrip (s1 s2 s3 role : String)
    (hn1 : '\n' ∉ s1.data) (hn2 : '\n' ∉ s2.data) (hn3 : '\n' ∉ s3.data)
    (hh1 : recHeading ("- " ++ s1) = false) (hh2 : recHeading ("- " ++ s2) = false)
    (hh3 : recHeading ("- " ++ s3) = false) :
    (parseAgentResponse ("**Recommendations**:\n" ++
        joinSep "\n" ["- " ++ s1, "- " ++ s2, "- " ++ s3]) role).recommendations =
      [jsTrim s1, jsTrim s2, jsTrim s3] ∧
    (∀ r role2, (∀ l ∈ splitLines r, recHeading l = false) →
      (parseAgentResponse r role2).recommendations = [] ∧
      (parseAgentResponse r role2).response = r) := by
  constructor
  · rw [parse_rec_of_heading role ["- " ++ s1, "- " ++ s2, "- " ++ s3] (by simp)
      (by
        intro l hl
        simp only [List.mem_cons, List.not_mem_nil, or_false] at hl
        rcases hl with rfl | rfl | rfl
        · exact nl_not_mem_marker '-' (by decide) s1 hn1
        · exact nl_not_mem_marker '-' (by decide) s2 hn2
        · exact nl_not_mem_marker '-' (by decide) s3 hn3)
      (by
        intro l hl
        simp only [List.mem_cons, List.not_mem_nil, or_false] at hl
        rcases hl with rfl | rfl | rfl <;>
          exact jsTrim_ne_of_head '-' _ (by decide) rfl)
      (by
        intro l hl
        simp only [List.mem_cons, List.not_mem_nil, or_false] at hl
        rcases hl with rfl | rfl | rfl
        · exact hh1
        · exact hh2
        · exact hh3)]
    rw [List.take_of_length_le (by simp)]
    rw [List.filter_cons_of_pos (isBulletLine_dash s1),
        List.filter_cons_of_pos (isBulletLine_dash s2),
        List.filter_cons_of_pos (isBulletLine_dash s3)]
    simp [stripBulletTrim_dash]
  · intro r role2 hno
    constructor
    · unfold parseAgentResponse
      dsimp only
      unfold sectionExtract
      exact foldl_no_match _ recHeading _ [] (fun l hl => hno l (List.mem_of_mem_filter hl))
    · rfl

/-- Witness for C5 at concrete bullet contents and a concrete heading-free
text. -/
theorem parser_roundtrip_witness :
    ('\n' ∉ ("Alpha" : String).data ∧ recHeading ("- " ++ "Alpha") = false) ∧
    ((parseAgentResponse ("**Recommendations**:\n" ++
        joinSep "\n" ["- " ++ "Alpha", "- " ++ "Beta", "- " ++ "Gamma"]) "analyst").recommendations =
      [jsTrim "Alpha", jsTrim "Beta", jsTrim "Gamma"] ∧
    (∀ r role2, (∀ l ∈ splitLines r, recHeading l = false) →
      (parseAgentResponse r role2).recommendations = [] ∧
      (parseAgentResponse r role2).response = r)) :=
  ⟨⟨by decide, by decide⟩,
   parser_roundtrip "Alpha" "Beta" "Gamma" "analyst"
     (by decide) (by decide) (by decide) (by decide) (by decide) (by decide)⟩

/-- Counterexample for C6 as stated: lines bulleted with `*` after the
heading are NOT collected — the source's filter only accepts `-` and `•` —
so the claimed three-element extraction comes out empty. -/
theorem star_bullets_not_collected :
    (parseAgentResponse "**Recommendations**:\n* Star one\n* Star two\n* Star three"
        "coach").recommendations = [] ∧
      (["Star one", "Star two", "Star three"] : List String) ≠ [] :=
  ⟨by decide, by decide⟩

/-- C6 (amended): the parser accepts exactly the `-` and `•` bullet markers
when collecting lines after a matched heading (marker and surrounding
whitespace stripped); a `*`-marked line in the window is ignored; and the
parser never throws on unstructured input (it is a total function). -/
theorem bullet_markers_amended (s1 s2 s3 role : String)
    (hn1 : '\n' ∉ s1.data) (hn2 : '\n' ∉ s2.data) (hn3 : '\n' ∉ s3.data)
    (hh1 : recHeading ("- " ++ s1) = false) (hh2 : recHeading ("• " ++ s2) = false)
    (hh3 : recHeading ("* " ++ s3) = false) :
    (parseAgentResponse ("**Recommendations**:\n" ++
        joinSep "\n" ["- " ++ s1, "• " ++ s2, "* " ++ s3]) role).recommendations =
      [jsTrim s1, jsTrim s2] := by
  rw [parse_rec_of_heading role ["- " ++ s1, "• " ++ s2, "* " ++ s3] (by simp)
    (by
      intro l hl
      simp only [List.mem_cons, List.not_mem_nil, or_false] at hl
      rcases hl with rfl | rfl | rfl
      · exact nl_not_mem_marker '-' (by decide) s1 hn1
      · exact nl_not_mem_marker '•' (by decide) s2 hn2
      · exact nl_not_mem_marker '*' (by decide) s3 hn3)
    (by
      intro l hl
      simp only [List.mem_cons, List.not_mem_nil, or_false] at hl
      rcases hl with rfl | rfl | rfl
      · exact jsTrim_ne_of_head '-' _ (by decide) rfl
      · exact jsTrim_ne_of_head '•' _ (by decide) rfl
      · exact jsTrim_ne_of_head '*' _ (by decide) rfl)
    (by
      intro l hl
      simp only [List.mem_cons, List.not_mem_nil, or_false] at hl
      rcases hl with rfl | rfl | rfl
      · exact hh1
      · exact hh2
      · exact hh3)]
  rw [List.take_of_length_le (by simp)]
  rw [List.filter_cons_of_pos (isBulletLine_dash s1),
      List.filter_cons_of_pos (isBulletLine_bullet s2),
      List.filter_cons_of_neg (by rw [isBulletLine_star s3]; simp)]
  simp [stripBulletTrim_dash, stripBulletTrim_bullet]

/-- Witness for the amended C6 at concrete bullet contents. -/
theorem bullet_markers_amended_witness :
    ('\n' ∉ ("One" : String).data ∧ recHeading ("• " ++ "Two") = false ∧
        recHeading ("* " ++ "Three") = false) ∧
      (parseAgentResponse ("**Recommendations**:\n" ++
          joinSep "\n" ["- " ++ "One", "• " ++ "Two", "* " ++ "Three"]) "coach").recommendations =
        [jsTrim "One", jsTrim "Two"] :=
  ⟨⟨by decide, by decide, by decide⟩,
   bullet_markers_amended "One" "Two" "Three" "coach"
     (by decide) (by decide) (by decide) (by decide) (by decide) (by decide)⟩

/-- Modelled from the spec: §4.6 states the whole-crew fallback's final
message is "the same deterministic combiner logic as §4.5's local fallback,
plus a domain-appropriate emoji/title header" — i.e. the header prepended to
the output of the synthesis-failure local combiner.  This definition follows
the spec's words, for comparison against `generateFallbackFinalOutput` from
the source. -/
def fallbackFinalFromSpec (results : List AgentResponse) (goalType userQuery : String) : String :=
  (if goalType == "sleep_tracking" then "😴" else "🚶‍♀️") ++ " **" ++
  capFirst (if goalType == "sleep_tracking" then "sleep optimization" else "daily movement") ++
  " Plan**\n\n" ++ localCombine results

/-- Counterexample for C7: on the sleep fallback responses the whole-crew
fallback message is not the local combiner's output behind a header — it even
renders a fourth pooled insight ("Environment greatly impacts sleep quality")
that the local combiner's three-insight cap drops. -/
theorem fallback_final_not_spec_combiner :
    generateFallbackFinalOutput (getFallbackResponses "sleep_tracking" "q" {})
        "sleep_tracking" "q" ≠
      fallbackFinalFromSpec (getFallbackResponses "sleep_tracking" "q" {})
        "sleep_tracking" "q" ∧
    strIncludes (generateFallbackFinalOutput (getFallbackResponses "sleep_tracking" "q" {})
        "sleep_tracking" "q") "Environment greatly impacts sleep quality" = true ∧
    strIncludes (localCombine (getFallbackResponses "sleep_tracking" "q" {}))
        "Environment greatly impacts sleep quality" = false :=
  ⟨by decide, by decide, by decide⟩

/-- C7 (amended): the whole-crew fallback message and the synthesis-failure
local combiner pool the first five recommendations identically (first-seen
order, no deduplication, numbered list), but the fallback renders ALL pooled
insights (no three-insight cap) inside its own template (emoji/title header,
"Priority Actions" / "Key Insights" / "Next Steps" sections), while the local
combiner caps insights at three and uses different surrounding wording: the
two are not the same combiner modulo a header. -/
theorem fallback_combiner_amended (rs : List AgentResponse) (g q : String) :
    (∃ a b, generateFallbackFinalOutput rs g q =
        a ++ joinSep "\n" ((((rs.map (fun r => r.recommendations)).flatten.take 5).enum).map
            (fun p => toString (p.1 + 1) ++ ". " ++ p.2)) ++
          ("\n\n**Key Insights:**\n" ++
            (joinSep "\n" ((rs.map (fun r => r.insights)).flatten.map (fun i => "• " ++ i)) ++ b))) ∧
    localCombine rs =
      "Based on expert analysis, here are your personalized recommendations:\n\n" ++
        joinSep "\n" ((((rs.map (fun r => r.recommendations)).flatten.take 5).enum).map
            (fun p => toString (p.1 + 1) ++ ". " ++ p.2)) ++
        "\n\nKey insights:\n" ++
        joinSep "\n" (((rs.map (fun r => r.insights)).flatten.take 3).map (fun i => "• " ++ i)) ++
        "\n\nLet me know if you'd like me to elaborate on any of these recommendations!" := by
  constructor
  · refine ⟨(if g == "sleep_tracking" then "😴" else "🚶‍♀️") ++ " **" ++
      capFirst (if g == "sleep_tracking" then "sleep optimization" else "daily movement") ++
      " Plan**\n\nBased on expert analysis, here's your personalized strategy:\n\n**Priority Actions:**\n",
      "\n\n**Next Steps:**\nStart with action #1 today and gradually build these habits into your routine. Consistency is more important than perfection!\n\nWhat would you like to focus on first?", ?_⟩
    unfold generateFallbackFinalOutput
    dsimp only
    simp only [String.append_assoc]
  · rfl

/-! ### Prompt lemmas (for C3) -/

/-- The prompt sent by an agent task is `createAgentPrompt` applied to the
joined prior responses and the role's current memory, whatever the oracle
does. -/
theorem executeAgentTask_prompt (o : Oracle) (i : Nat) (ag : AgentConfig) (t : Task)
    (q : String) (ctx : Context) (acc : List AgentResponse) (st : SState) (now : Nat) :
    (executeAgentTask o i ag t q ctx acc st now).2.2 =
      createAgentPrompt ag t q ctx (joinSep "\n\n" (acc.map (fun r => r.response)))
        (st.agentMemory ag.role) := by
  unfold executeAgentTask
  dsimp only
  cases o i (createAgentPrompt ag t q ctx (joinSep "\n\n" (acc.map (fun r => r.response)))
    (st.agentMemory ag.role)) <;> rfl

/-- Two oracles that agree on call `i` give the same agent-task outcome. -/
theorem executeAgentTask_congr (o o2 : Oracle) (i : Nat) (ag : AgentConfig) (t : Task)
    (q : String) (ctx : Context) (acc : List AgentResponse) (st : SState) (now : Nat)
    (h : ∀ p, o2 i p = o i p) :
    executeAgentTask o2 i ag t q ctx acc st now = executeAgentTask o i ag t q ctx acc st now := by
  unfold executeAgentTask
  dsimp only
  rw [h]

/-- The built prompt embeds the joined prior outputs verbatim. -/
theorem createAgentPrompt_embeds (ag : AgentConfig) (t : Task) (q : String)
    (ctx : Context) (prev : String) (mem : List MemoryEntry) :
    ∃ a b, createAgentPrompt ag t q ctx prev mem = a ++ prev ++ b := by
  by_cases h : prev = ""
  · subst h
    exact ⟨createAgentPrompt ag t q ctx "" mem, "",
      by rw [String.append_empty, String.append_empty]⟩
  · refine ⟨"# Agent Role: " ++ ag.role ++ "\n\n## Agent Profile\n**Goal**: " ++ ag.goal ++
      "\n**Backstory**: " ++ ag.backstory ++ "\n**Available Tools**: " ++ joinSep ", " ag.tools ++
      "\n\n## Current Task\n" ++ t.description ++ "\n\n## User Context\n" ++
      formatContextForAgent ctx ag.role ++ "\n\n## Previous Agent Outputs\n",
      "\n\n## User Query\n\"" ++ q ++ "\"\n\n" ++
      (if mem.length > 0 then
        "\n\nPrevious interactions with this user:\n" ++
        joinSep "\n\n" ((lastN 3 mem).map (fun m => "Q: " ++ m.query ++ "\nA: " ++ m.response))
      else "") ++
      "\n\n## Instructions\nAs the " ++ ag.role ++
      ", provide your specialized analysis and recommendations. Focus on your specific expertise area while considering the user's context and previous agent insights. Provide actionable, specific advice that aligns with your role.\n\nExpected Output Format:\n- **Analysis**: Your specialized assessment\n- **Recommendations**: 3-5 specific actionable items\n- **Insights**: Key patterns or observations\n- **Next Steps**: Immediate actions the user can take\n\nBe conversational, supportive, and provide specific, measurable recommendations within your area of expertise.", ?_⟩
    unfold createAgentPrompt
    dsimp only
    rw [if_neg (by simp [h])]
    simp only [String.append_assoc]

/-- With no prior outputs the built prompt embeds the explicit first-agent
marker. -/
theorem createAgentPrompt_marker (ag : AgentConfig) (t : Task) (q : String)
    (ctx : Context) (mem : List MemoryEntry) :
    ∃ a b, createAgentPrompt ag t q ctx "" mem =
      a ++ "None - you are the first agent in this crew." ++ b := by
  refine ⟨"# Agent Role: " ++ ag.role ++ "\n\n## Agent Profile\n**Goal**: " ++ ag.goal ++
    "\n**Backstory**: " ++ ag.backstory ++ "\n**Available Tools**: " ++ joinSep ", " ag.tools ++
    "\n\n## Current Task\n" ++ t.description ++ "\n\n## User Context\n" ++
    formatContextForAgent ctx ag.role ++ "\n\n## Previous Agent Outputs\n",
    "\n\n## User Query\n\"" ++ q ++ "\"\n\n" ++
    (if mem.length > 0 then
      "\n\nPrevious interactions with this user:\n" ++
      joinSep "\n\n" ((lastN 3 mem).map (fun m => "Q: " ++ m.query ++ "\nA: " ++ m.response))
    else "") ++
    "\n\n## Instructions\nAs the " ++ ag.role ++
    ", provide your specialized analysis and recommendations. Focus on your specific expertise area while considering the user's context and previous agent insights. Provide actionable, specific advice that aligns with your role.\n\nExpected Output Format:\n- **Analysis**: Your specialized assessment\n- **Recommendations**: 3-5 specific actionable items\n- **Insights**: Key patterns or observations\n- **Next Steps**: Immediate actions the user can take\n\nBe conversational, supportive, and provide specific, measurable recommendations within your area of expertise.", ?_⟩
  unfold createAgentPrompt
  dsimp only
  have hc : (("" : String) == "") = true := rfl
  rw [if_pos hc]
  simp only [String.append_assoc]

/-- Prompts depend only on strictly earlier oracle answers: two oracles that
agree on all calls before `i0 + i` produce the same prompt at trace position
`i` of the per-task loop started at call index `i0`. -/
theorem runTasks_prompts_agree (agents : List (String × AgentConfig)) (q : String)
    (ctx : Context) (now : Nat) (o o2 : Oracle) :
    ∀ (tasks : List Task) (i0 : Nat) (acc : List AgentResponse) (st : SState) (i : Nat),
      (∀ j, j < i0 + i → ∀ p, o2 j p = o j p) →
      ((runTasks o2 agents q ctx now tasks i0 acc st).2.2).get? i =
        ((runTasks o agents q ctx now tasks i0 acc st).2.2).get? i := by
  intro tasks
  induction tasks with
  | nil => intro i0 acc st i _; rfl
  | cons t ts ih =>
    intro i0 acc st i h
    match hlk : agents.lookup t.agent with
    | none => simp only [runTasks, hlk]
    | some ag =>
      cases i with
      | zero =>
        simp only [runTasks, hlk, List.get?_cons_zero]
        rw [executeAgentTask_prompt, executeAgentTask_prompt]
      | succ k =>
        simp only [runTasks, hlk, List.get?_cons_succ]
        rw [executeAgentTask_congr o o2 i0 ag t q ctx acc st now
          (fun p => h i0 (by omega) p)]
        exact ih (i0 + 1) (acc ++ [(executeAgentTask o i0 ag t q ctx acc st now).1])
          (executeAgentTask o i0 ag t q ctx acc st now).2.1 k
          (fun j hj p => h j (by omega) p)

/-- When the per-task loop completes, every prompt in its trace is
`createAgentPrompt` over exactly the responses accumulated so far. -/
theorem runTasks_prompt_spec (o : Oracle) (agents : List (String × AgentConfig))
    (q : String) (ctx : Context) (now : Nat) :
    ∀ (tasks : List Task) (i0 : Nat) (acc : List AgentResponse) (st : SState)
      (results : List AgentResponse),
      (runTasks o agents q ctx now tasks i0 acc st).1 = some results →
      ∃ new, results = acc ++ new ∧
        ∀ k pr, ((runTasks o agents q ctx now tasks i0 acc st).2.2).get? k = some pr →
          ∃ ag t mem, pr = createAgentPrompt ag t q ctx
            (joinSep "\n\n" ((acc ++ new.take k).map (fun r => r.response))) mem := by
  intro tasks
  induction tasks with
  | nil =>
    intro i0 acc st results hres
    refine ⟨[], ?_, ?_⟩
    · simpa using (Option.some_inj.mp hres).symm
    · intro k pr hpr
      simp [runTasks] at hpr
  | cons t ts ih =>
    intro i0 acc st results hres
    match hlk : agents.lookup t.agent with
    | none => rw [show (runTasks o agents q ctx now (t :: ts) i0 acc st) =
        (none, st, []) from by simp only [runTasks, hlk]] at hres; exact absurd hres (by simp)
    | some ag =>
      have hres' : (runTasks o agents q ctx now ts (i0 + 1)
          (acc ++ [(executeAgentTask o i0 ag t q ctx acc st now).1])
          (executeAgentTask o i0 ag t q ctx acc st now).2.1).1 = some results := by
        rw [← hres]; simp only [runTasks, hlk]
      obtain ⟨new', hres2, hspec⟩ := ih (i0 + 1)
        (acc ++ [(executeAgentTask o i0 ag t q ctx acc st now).1])
        (executeAgentTask o i0 ag t q ctx acc st now).2.1 results hres'
      refine ⟨(executeAgentTask o i0 ag t q ctx acc st now).1 :: new', ?_, ?_⟩
      · rw [hres2, List.append_assoc, List.singleton_append]
      · intro k pr hpr
        rw [show ((runTasks o agents q ctx now (t :: ts) i0 acc st).2.2) =
            (executeAgentTask o i0 ag t q ctx acc st now).2.2 ::
              (runTasks o agents q ctx now ts (i0 + 1)
                (acc ++ [(executeAgentTask o i0 ag t q ctx acc st now).1])
                (executeAgentTask o i0 ag t q ctx acc st now).2.1).2.2
          from by simp only [runTasks, hlk]] at hpr
        cases k with
        | zero =>
          refine ⟨ag, t, st.agentMemory ag.role, ?_⟩
          rw [List.get?_cons_zero] at hpr
          rw [← Option.some_inj.mp hpr, executeAgentTask_prompt]
          simp
        | succ k' =>
          rw [List.get?_cons_succ] at hpr
          obtain ⟨ag', t', mem', hsp⟩ := hspec k' pr hpr
          refine ⟨ag', t', mem', ?_⟩
          rw [hsp, List.take_succ_cons, List.append_assoc, List.singleton_append]

/-- C3: in a configured run over either crew, the first prompt embeds the
explicit first-agent marker; the prompt at position `i` embeds verbatim the
concatenation (in order) of the response texts of tasks `1..i`; and each
prompt is a function of strictly earlier oracle answers only, so no text of
the agent's own or any later agent's response can occur in it other than by
coincidence of earlier output. -/
theorem prompt_isolation (oracle : Oracle) (g : GoalType) (q : String) (ctx : Context)
    (st : SState) (now : Nat) (results : List AgentResponse)
    (hres : (runTasks oracle (crewCfg g).agents q ctx now (crewCfg g).tasks 0 [] st).1 =
      some results) :
    (∀ i pr, 0 < i →
      ((runTasks oracle (crewCfg g).agents q ctx now (crewCfg g).tasks 0 [] st).2.2).get? i =
          some pr →
        ∃ a b, pr = a ++ joinSep "\n\n" ((results.take i).map (fun r => r.response)) ++ b) ∧
    (∀ pr,
      ((runTasks oracle (crewCfg g).agents q ctx now (crewCfg g).tasks 0 [] st).2.2).get? 0 =
          some pr →
        ∃ a b, pr = a ++ "None - you are the first agent in this crew." ++ b) ∧
    (∀ oracle2 i, (∀ j, j < i → ∀ p, oracle2 j p = oracle j p) →
      ((runTasks oracle2 (crewCfg g).agents q ctx now (crewCfg g).tasks 0 [] st).2.2).get? i =
        ((runTasks oracle (crewCfg g).agents q ctx now (crewCfg g).tasks 0 [] st).2.2).get? i) := by
  obtain ⟨new, hnew, hspec⟩ := runTasks_prompt_spec oracle (crewCfg g).agents q ctx now
    (crewCfg g).tasks 0 [] st results hres
  rw [List.nil_append] at hnew
  subst hnew
  refine ⟨?_, ?_, ?_⟩
  · intro i pr _ hpr
    obtain ⟨ag, t, mem, hsp⟩ := hspec i pr hpr
    rw [List.nil_append] at hsp
    rw [hsp]
    exact createAgentPrompt_embeds ag t q ctx _ mem
  · intro pr hpr
    obtain ⟨ag, t, mem, hsp⟩ := hspec 0 pr hpr
    rw [List.take_zero, List.append_nil] at hsp
    rw [hsp]
    exact createAgentPrompt_marker ag t q ctx mem
  · intro oracle2 i hagree
    exact runTasks_prompts_agree (crewCfg g).agents q ctx now oracle oracle2
      (crewCfg g).tasks 0 [] st i (by simpa using hagree)

/-- Witness for C3: a concrete configured sleep-crew run with an oracle that
answers call `i` with `toString i`. -/
theorem prompt_isolation_witness :
    (let oracle : Oracle := fun i _ => Except.ok (toString i)
     let ags := (crewCfg GoalType.sleep_tracking).agents
     let tks := (crewCfg GoalType.sleep_tracking).tasks
     let results := ((runTasks oracle ags "q" {} 0 tks 0 [] initState).1).getD []
     (runTasks oracle ags "q" {} 0 tks 0 [] initState).1 = some results ∧
     ((∀ i pr, 0 < i →
        ((runTasks oracle ags "q" {} 0 tks 0 [] initState).2.2).get? i = some pr →
        ∃ a b, pr = a ++ joinSep "\n\n" ((results.take i).map (fun r => r.response)) ++ b) ∧
      (∀ pr, ((runTasks oracle ags "q" {} 0 tks 0 [] initState).2.2).get? 0 = some pr →
        ∃ a b, pr = a ++ "None - you are the first agent in this crew." ++ b) ∧
      (∀ oracle2 i, (∀ j, j < i → ∀ p, oracle2 j p = oracle j p) →
        ((runTasks oracle2 ags "q" {} 0 tks 0 [] initState).2.2).get? i =
          ((runTasks oracle ags "q" {} 0 tks 0 [] initState).2.2).get? i))) :=
  ⟨rfl, prompt_isolation (fun i _ => Except.ok (toString i)) GoalType.sleep_tracking "q" {}
     initState 0 _ rfl⟩

/-- C2: with a configured key the result list of `executeCrew` has one entry
per task of the selected crew (3 for both domains); on the whole-crew
fallback path it has exactly the Fallback Engine's own count of 2 per domain. -/
theorem results_length_matches (apiKey : String) (oracle : Oracle) (g : GoalType)
    (q : String) (ctx : Context) (st : SState) (now elapsed : Nat) :
    (isConfigured apiKey = true →
      (executeCrew apiKey oracle g q ctx st now elapsed).1.results.length =
          (crewCfg g).tasks.length ∧
        (crewCfg g).tasks.length = 3) ∧
    (isConfigured apiKey = false →
      (executeCrew apiKey oracle g q ctx st now elapsed).1.results.length =
          (getFallbackResponses g.str q ctx).length ∧
        (getFallbackResponses g.str q ctx).length = 2) := by
  constructor
  · intro h
    have hlookup : ∀ t ∈ (crewCfg g).tasks, (((crewCfg g).agents).lookup t.agent).isSome := by
      cases g <;> decide
    obtain ⟨rs, h1, h2⟩ := runTasks_some_length oracle (crewCfg g).agents q ctx now
      (crewCfg g).tasks 0 []
      ({ st with userContext := fun k =>
          if k == g.str ++ "_context" then some ctx else st.userContext k })
      hlookup
    unfold executeCrew
    rw [if_neg (by rw [h]; simp)]
    dsimp only
    rw [h1]
    dsimp only
    refine ⟨by simpa using h2, ?_⟩
    cases g <;> rfl
  · intro h
    unfold executeCrew
    rw [if_pos (by rw [h]; rfl)]
    refine ⟨rfl, ?_⟩
    cases g <;> rfl

/-- Witness for C2: a configured run on the sleep crew yields 3 results; an
unconfigured run on the steps domain yields the fallback's own 2. -/
theorem results_length_matches_witness :
    ((executeCrew "sk-aaaaaaaaaaaaaaaaaaaaaa" (fun _ _ => Except.ok "hello")
        GoalType.sleep_tracking "q" {} initState 0 9).1.results.length =
          (crewCfg GoalType.sleep_tracking).tasks.length ∧
      (crewCfg GoalType.sleep_tracking).tasks.length = 3) ∧
    ((executeCrew "" (fun _ _ => Except.ok "hello")
        GoalType.daily_steps "q" {} initState 0 9).1.results.length =
          (getFallbackResponses GoalType.daily_steps.str "q" {}).length ∧
      (getFallbackResponses GoalType.daily_steps.str "q" {}).length = 2) :=
  ⟨(results_length_matches "sk-aaaaaaaaaaaaaaaaaaaaaa" (fun _ _ => Except.ok "hello")
      GoalType.sleep_tracking "q" {} initState 0 9).1 (by decide),
   (results_length_matches "" (fun _ _ => Except.ok "hello")
      GoalType.daily_steps "q" {} initState 0 9).2 (by decide)⟩

/-- C8: with an unconfigured key (empty, the placeholder, or length ≤ 20)
`executeCrew` makes no completion call (its result is oracle-independent),
reports the fixed nominal elapsed time of 500, and its final output starts
with the domain template header; on the sleep domain the first fallback
result's text mentions the target sleep hours value from the context. -/
theorem unconfigured_fallback (apiKey : String) (oracle oracle2 : Oracle) (g : GoalType)
    (q : String) (ctx : Context) (st : SState) (now elapsed : Nat)
    (h : isConfigured apiKey = false) :
    executeCrew apiKey oracle g q ctx st now elapsed =
        executeCrew apiKey oracle2 g q ctx st now elapsed ∧
      (executeCrew apiKey oracle g q ctx st now elapsed).1.executionTime = 500 ∧
      (∃ rest, (executeCrew apiKey oracle g q ctx st now elapsed).1.finalOutput =
        (if g = GoalType.sleep_tracking then "😴 **Sleep optimization Plan**"
         else "🚶‍♀️ **Daily movement Plan**") ++ rest) ∧
      (g = GoalType.sleep_tracking →
        ∃ r0 pre post,
          (executeCrew apiKey oracle g q ctx st now elapsed).1.results.head? = some r0 ∧
            r0.response = pre ++ toString (numOr ctx.targetSleepHours 8) ++ post) := by
  have hcond : (!(isConfigured apiKey)) = true := by rw [h]; rfl
  unfold executeCrew
  simp only [if_pos hcond]
  refine ⟨by trivial, by rfl, ?_, ?_⟩
  · cases g
    · rw [if_pos rfl]
      have hred : (getFallbackCrewExecution GoalType.sleep_tracking.str q ctx).finalOutput =
          generateFallbackFinalOutput (getFallbackResponses "sleep_tracking" "" {})
            "sleep_tracking" "" := rfl
      rw [hred]
      exact ⟨(generateFallbackFinalOutput (getFallbackResponses "sleep_tracking" "" {})
          "sleep_tracking" "").drop ("😴 **Sleep optimization Plan**".length), by decide⟩
    · rw [if_neg (by simp)]
      have hred : (getFallbackCrewExecution GoalType.daily_steps.str q ctx).finalOutput =
          generateFallbackFinalOutput (getFallbackResponses "daily_steps" "" {})
            "daily_steps" "" := rfl
      rw [hred]
      exact ⟨(generateFallbackFinalOutput (getFallbackResponses "daily_steps" "" {})
          "daily_steps" "").drop ("🚶‍♀️ **Daily movement Plan**".length), by decide⟩
  · intro hg
    subst hg
    refine ⟨_, "Based on your sleep data, I can see you're targeting ",
      " hours of sleep. Your current patterns show room for optimization in sleep consistency and quality.",
      rfl, rfl⟩

/-- Witness for C8 at the empty key, the sleep domain, and a context with a
concrete target-sleep-hours value. -/
theorem unconfigured_fallback_witness :
    isConfigured "" = false ∧
      (executeCrew "" (fun _ _ => Except.ok "live") GoalType.sleep_tracking "q"
          { targetSleepHours := some 7 } initState 0 9 =
        executeCrew "" (fun _ _ => Except.error "down") GoalType.sleep_tracking "q"
          { targetSleepHours := some 7 } initState 0 9 ∧
      (executeCrew "" (fun _ _ => Except.ok "live") GoalType.sleep_tracking "q"
          { targetSleepHours := some 7 } initState 0 9).1.executionTime = 500 ∧
      (∃ rest, (executeCrew "" (fun _ _ => Except.ok "live") GoalType.sleep_tracking "q"
          { targetSleepHours := some 7 } initState 0 9).1.finalOutput =
        (if GoalType.sleep_tracking = GoalType.sleep_tracking
         then "😴 **Sleep optimization Plan**"
         else "🚶‍♀️ **Daily movement Plan**") ++ rest) ∧
      (GoalType.sleep_tracking = GoalType.sleep_tracking →
        ∃ r0 pre post,
          (executeCrew "" (fun _ _ => Except.ok "live") GoalType.sleep_tracking "q"
              { targetSleepHours := some 7 } initState 0 9).1.results.head? = some r0 ∧
            r0.response = pre ++
              toString (numOr (Context.targetSleepHours { targetSleepHours := some 7 }) 8) ++
              post)) :=
  ⟨rfl,
   unconfigured_fallback "" (fun _ _ => Except.ok "live") (fun _ _ => Except.error "down")
     GoalType.sleep_tracking "q" { targetSleepHours := some 7 } initState 0 9 rfl⟩

end CrewAI
